import Mathlib

/-!
Shallow embedding of `src/frontend/main.js` of the Automated Report
Generation System (client-side logic: login/OTP flow, session store,
upload/report client, history synchronizer).

Modelling conventions:
* Browser/network effects are made explicit: every `fetch` outcome is an
  oracle parameter (`Option Bool`: `none` = the request rejected with a
  network error, `some b` = a response arrived with `res.ok = b`), and each
  handler returns an outcome record listing the requests it issued, the
  alerts it showed and the history entries it appended.
* JavaScript numbers coerced into strings (`Date.now()`, years, the random
  suffix) are modelled by `Nat` and an explicit decimal rendering
  `natToString`.
* `localStorage` is one optional string slot; `JSON.parse` of the stored
  session is an oracle `parse : String -> Option User` (`none` = the parse
  throws).
* All model functions are total; a JavaScript exception that the source
  catches is represented by the corresponding fallback branch, so totality
  of a model function mirrors the fact that the source handler never lets
  an exception escape.
-/

/-- A JSON value, as far as the request bodies of `main.js` need. -/
inductive JVal where
  | str (s : String)
  | num (n : Nat)
  | null
  | arr (xs : List JVal)
  | obj (fields : List (String × JVal))
deriving Repr

/-- Top-level keys of a JSON object (empty for non-objects). -/
def objKeys : JVal → List String
  | JVal.obj fields => fields.map (fun p => p.1)
  | _ => []

/-- The user record returned by `/api/verify-otp` and held in `currentUser`. -/
structure User where
  email : String
  name : String
  userId : String
  memberSince : String
deriving Repr, DecidableEq

/-! ### Decimal rendering of numbers (JS implicit number-to-string coercion) -/

/-- Fuel-driven decimal digit list of a natural number, most significant
digit first. `natToDigitsAux (n+1) n` always has enough fuel. -/
def natToDigitsAux : Nat → Nat → List Char
  | 0, _ => []
  | fuel + 1, n =>
    if n < 10 then [Nat.digitChar n]
    else natToDigitsAux fuel (n / 10) ++ [Nat.digitChar (n % 10)]

/-- Decimal rendering of a natural number, modelling the JS coercion of an
integer to a string (as in `'AIF' + Date.now()` or `random.toString()`). -/
def natToString (n : Nat) : String :=
  ⟨natToDigitsAux (n + 1) n⟩

/-- Model of JS `String.prototype.padStart(n, c)`. -/
def padStart (n : Nat) (c : Char) (s : String) : String :=
  ⟨List.replicate (n - s.data.length) c ++ s.data⟩

/-! ### Base64 (the browser builtin `btoa`) -/

/-- The base64 alphabet, index 0 to 63. -/
def b64Alphabet : List Char :=
  "ABCDEFGHIJKLMNOPQRSTUVWXYZabcdefghijklmnopqrstuvwxyz0123456789+/".data

/-- Character of the base64 alphabet at a 6-bit index. -/
def b64Char (i : Nat) : Char :=
  b64Alphabet.getD i 'A'

/-- Base64 encoding of a byte list, with `=` padding, as `btoa` produces. -/
def b64EncodeBytes : List Nat → List Char
  | [] => []
  | [b1] => [b64Char (b1 / 4), b64Char (b1 % 4 * 16), '=', '=']
  | [b1, b2] =>
      [b64Char (b1 / 4), b64Char (b1 % 4 * 16 + b2 / 16), b64Char (b2 % 16 * 4), '=']
  | b1 :: b2 :: b3 :: rest =>
      b64Char (b1 / 4) :: b64Char (b1 % 4 * 16 + b2 / 16) ::
      b64Char (b2 % 16 * 4 + b3 / 64) :: b64Char (b3 % 64) :: b64EncodeBytes rest

/-- Model of the browser builtin `btoa` on the code units of a string. -/
def btoa (s : String) : String :=
  ⟨b64EncodeBytes (s.data.map Char.toNat)⟩

/-! ### Identifier Generator (`main.js` lines 9-18) -/

/-- Model of `.replace(/[^a-zA-Z0-9]/g, '')`: keep only alphanumerics. -/
def sanitizeAlnum (s : String) : String :=
  ⟨s.data.filter Char.isAlphanum⟩

/-- Model of `generateUniqueIdForUser(email)`:
`'AIF' + Date.now() + '_' + btoa(email).replace(/[^a-zA-Z0-9]/g, '').slice(0, 8)`.
The current timestamp `Date.now()` is the parameter `now`. -/
def generateUniqueIdForUser (now : Nat) (email : String) : String :=
  "AIF" ++ natToString now ++ "_" ++ ⟨(sanitizeAlnum (btoa email)).data.take 8⟩

/-- Model of `generateUniqueId()`: prefix `'AIF'`, the current year, and a
zero-padded 4-digit random number. The current year and the value
`Math.floor(Math.random() * 10000)` are the parameters `year` and `rnd`. -/
def generateUniqueId (year rnd : Nat) : String :=
  "AIF" ++ natToString year ++ padStart 4 '0' (natToString rnd)

/-! ### Session store (`main.js` lines 386-446) -/

/-- The mutable session state: the globals `isLoggedIn` and `currentUser`,
plus the `localStorage` slot under the key `currentUser` (one optional
serialized string). -/
structure SessionState where
  isLoggedIn : Bool
  currentUser : Option User
  storage : Option String
deriving Repr, DecidableEq

/-- The authentication query gating report and history actions: the
`isLoggedIn` flag. -/
def isAuthenticated (st : SessionState) : Bool :=
  st.isLoggedIn

/-- Model of `loginUser(user)`: sets `isLoggedIn = true` and
`currentUser = user`, then tries `localStorage.setItem` inside a
`try`/`catch`; `storageOk = false` means the write threw, in which case the
error is logged and swallowed and the storage slot keeps its old value.
`serialize` models `JSON.stringify`. -/
def loginUser (serialize : User → String) (user : User) (storageOk : Bool)
    (st : SessionState) : SessionState :=
  { isLoggedIn := true
    currentUser := some user
    storage := if storageOk then some (serialize user) else st.storage }

/-- Model of `checkLoginStatusOnLoad()`: reads the stored session string; if
present and parseable restores the session, if present but unparseable
(`JSON.parse` throws, modelled by `parse s = none`) removes the stored item
and resets to unauthenticated, if absent resets to unauthenticated. -/
def checkLoginStatusOnLoad (parse : String → Option User)
    (st : SessionState) : SessionState :=
  match st.storage with
  | some s =>
    match parse s with
    | some u => { st with isLoggedIn := true, currentUser := some u }
    | none => { isLoggedIn := false, currentUser := none, storage := none }
  | none => { st with isLoggedIn := false, currentUser := none }

/-! ### History synchronizer (`main.js` lines 28-107) -/

/-- An activity record as returned by `GET /api/history/{userId}`. -/
structure HistoryItem where
  created_at : Nat
  activity_type : String
  file_name : Option String
  report_id : Option String
deriving Repr, DecidableEq

/-- A row of the history table body, as the renderer builds it. -/
inductive TableRow where
  | item (date : String) (activity : String) (fileName : String)
      (size : String) (reportId : String)
  | noRecords
  | errorRow (msg : String)
deriving Repr, DecidableEq

/-- One rendered data row: date via the formatter, activity, file name with
`-` fallback, size placeholder `-`, report id with `-` fallback. -/
def renderRow (fmt : Nat → String) (it : HistoryItem) : TableRow :=
  TableRow.item (fmt it.created_at) it.activity_type
    (it.file_name.getD "-") "-" (it.report_id.getD "-")

/-- Model of `renderHistoryTable(historyItems)`: clears the table, shows one
no-records row when the list is empty, otherwise one row per item.
`fmt` models the `formatDate` helper (an `Intl` wrapper, kept abstract). -/
def renderHistoryTable (fmt : Nat → String) (items : List HistoryItem) :
    List TableRow :=
  if items.length = 0 then [TableRow.noRecords]
  else items.map (renderRow fmt)

/-- Outcome of the history fetch oracle for `GET /api/history/{userId}`:
the request rejected, returned a non-success status, or returned a parsed
list of records. -/
inductive HistoryNet where
  | netError
  | httpError (status : Nat)
  | success (items : List HistoryItem)
deriving Repr

/-- Result of `fetchUserHistory`: the final contents of the history table
body and whether the network request was issued at all. -/
structure FetchOutcome where
  table : List TableRow
  requestIssued : Bool
deriving Repr, DecidableEq

/-- Model of `fetchUserHistory()`: returns immediately when no user is
logged in or the user id is falsy (empty); otherwise issues the request and
either renders the result, or replaces the table with an inline error row
on a non-success status or a network error. `table` is the table contents
before the call. -/
def fetchUserHistory (fmt : Nat → String) (currentUser : Option User)
    (net : HistoryNet) (table : List TableRow) : FetchOutcome :=
  match currentUser with
  | none => { table := table, requestIssued := false }
  | some u =>
    if u.userId = "" then { table := table, requestIssued := false }
    else
      match net with
      | HistoryNet.httpError status =>
        { table := [TableRow.errorRow ("Error loading history: " ++ natToString status)]
          requestIssued := true }
      | HistoryNet.netError =>
        { table := [TableRow.errorRow "Failed to load history."]
          requestIssued := true }
      | HistoryNet.success items =>
        { table := renderHistoryTable fmt items, requestIssued := true }

/-! ### Upload/report client (`main.js` lines 113-282) -/

/-- A local history entry as pushed by `addHistoryEntry` (fields of the JS
object literal; `fileSize` is `none` where the source writes the string
`'-'`, `some n` where it writes `file.size`). -/
structure HistoryEntry where
  date : Nat
  activity : String
  fileName : String
  fileSize : Option Nat
  fileId : String
  reportId : String
deriving Repr, DecidableEq

/-- The JSON body POSTed to `/api/history/` after a daily-assessment
upload; `report_id = none` models the literal `null`. -/
structure HistoryPostBody where
  user_id : String
  activity_type : String
  file_id : String
  file_name : String
  report_id : Option String
  filters : List (String × List String)
deriving Repr, DecidableEq

/-- Result of an upload handler: the returned value (`some fileId` or the
`null` of a failure), whether the multipart upload request was issued, the
bodies POSTed to `/api/history/`, the entries pushed onto the local
`userHistory`, and the alerts shown, in order. -/
structure UploadOutcome where
  result : Option String
  uploadRequested : Bool
  historyPosts : List HistoryPostBody
  localEntries : List HistoryEntry
  alerts : List String
deriving Repr, DecidableEq

/-- Model of `handleDailyAssessmentFile(file)`. Oracle parameters:
`year`, `rnd` feed `generateUniqueId`; `uploadNet` is the outcome of the
upload `fetch` (`none` = network error, `some b` = response with
`res.ok = b`); `historyNet` is the outcome of the history POST `fetch`
(whose status is never checked, so only `none` = rejection matters, and a
rejection is caught by the same `catch`, which then returns `null`). The
local `addHistoryEntry` call is commented out in the source, so
`localEntries` is always empty. -/
def handleDailyAssessmentFile (currentUser : Option User) (year rnd : Nat)
    (fileName : String) (uploadNet : Option Bool) (historyNet : Option Bool) :
    UploadOutcome :=
  match currentUser with
  | none =>
    { result := none, uploadRequested := false, historyPosts := []
      localEntries := [], alerts := ["User not logged in."] }
  | some u =>
    let fileId := generateUniqueId year rnd
    match uploadNet with
    | some true =>
      let post : HistoryPostBody :=
        { user_id := u.userId
          activity_type := "Daily Assessment File Upload"
          file_id := fileId
          file_name := fileName
          report_id := none
          filters := [] }
      match historyNet with
      | none =>
        { result := none, uploadRequested := true, historyPosts := [post]
          localEntries := []
          alerts := ["Daily Assessment file uploaded", "Upload failed"] }
      | some _ =>
        { result := some fileId, uploadRequested := true
          historyPosts := [post], localEntries := []
          alerts := ["Daily Assessment file uploaded"] }
    | _ =>
      { result := none, uploadRequested := true, historyPosts := []
        localEntries := [], alerts := ["Upload failed"] }

/-- Model of `handleImpactAssessmentFile(file)`. Same oracle conventions as
the daily variant; this one appends a local history entry on success and
sends nothing to `/api/history/`. `now` models `new Date()` for the entry
date and `fileSize` models `file.size`. -/
def handleImpactAssessmentFile (currentUser : Option User) (year rnd now : Nat)
    (fileName : String) (fileSize : Nat) (uploadNet : Option Bool) :
    UploadOutcome :=
  match currentUser with
  | none =>
    { result := none, uploadRequested := false, historyPosts := []
      localEntries := [], alerts := ["User not logged in."] }
  | some _ =>
    let fileId := generateUniqueId year rnd
    match uploadNet with
    | some true =>
      { result := some fileId, uploadRequested := true, historyPosts := []
        localEntries := [{ date := now, activity := "IA File Upload"
                           fileName := fileName, fileSize := some fileSize
                           fileId := fileId, reportId := "-" }]
        alerts := ["Impact Assessment file uploaded"] }
    | _ =>
      { result := none, uploadRequested := true, historyPosts := []
        localEntries := [], alerts := ["Upload failed"] }

/-- Model of `getSelectedFilters(formId)` applied to the entries of the
form's `FormData` (an ordered list of key/value pairs): groups values under
their key, keeping first-appearance key order and per-key value order. -/
def addFilter (fs : List (String × List String)) (k v : String) :
    List (String × List String) :=
  match fs with
  | [] => [(k, [v])]
  | (k', vs) :: rest =>
    if k' = k then (k', vs ++ [v]) :: rest else (k', vs) :: addFilter rest k v

/-- Folds the form entries through `addFilter`, as the source's
`for...of formData.entries()` loop does. -/
def getSelectedFilters (entries : List (String × String)) :
    List (String × List String) :=
  entries.foldl (fun fs e => addFilter fs e.1 e.2) []

/-- JSON rendering of a filter selection, as `JSON.stringify` sees the
`filters` object: each key maps to an array of strings. -/
def filtersToJVal (fs : List (String × List String)) : JVal :=
  JVal.obj (fs.map (fun p => (p.1, JVal.arr (p.2.map JVal.str))))

/-- Result of a report generator: the JSON bodies sent to the report
endpoint, the local history entries appended, the alerts shown, and
whether the login popup was shown instead of doing anything. -/
structure ReportOutcome where
  requests : List JVal
  localEntries : List HistoryEntry
  alerts : List String
  loginPromptShown : Bool
deriving Repr

/-- Model of `generateDailyAssessmentReport(relatedFileId = '-')`.
When not authenticated it only shows the login popup. Otherwise it sends
`{userId, filters, reportId}` (note: no `fileId` field) to
`/api/daily-assessment/report`; on success it appends a local history
entry whose `fileId` is the `relatedFileId` argument and whose `reportId`
is the generated one. `form` is the filter form's `FormData` entry list. -/
def generateDailyAssessmentReport (isLoggedIn : Bool)
    (currentUser : Option User) (relatedFileId : String) (year rnd now : Nat)
    (form : List (String × String)) (net : Option Bool) : ReportOutcome :=
  if isLoggedIn = false then
    { requests := [], localEntries := [], alerts := [], loginPromptShown := true }
  else
    match currentUser with
    | none =>
      { requests := [], localEntries := [], alerts := [], loginPromptShown := true }
    | some u =>
      let reportId := generateUniqueId year rnd
      let filters := getSelectedFilters form
      let body := JVal.obj
        [("userId", JVal.str u.userId), ("filters", filtersToJVal filters),
         ("reportId", JVal.str reportId)]
      match net with
      | some true =>
        { requests := [body]
          localEntries := [{ date := now, activity := "DA Report"
                             fileName := "Daily_Assessment_Report"
                             fileSize := none, fileId := relatedFileId
                             reportId := reportId }]
          alerts := ["Daily Assessment report generated. ID: " ++ reportId]
          loginPromptShown := false }
      | _ =>
        { requests := [body], localEntries := []
          alerts := ["Failed to generate report. Please try again."]
          loginPromptShown := false }

/-- Model of `generateImpactAssessmentReport(relatedFileId = '-')`,
structurally identical to the daily variant with its own strings and
endpoint. -/
def generateImpactAssessmentReport (isLoggedIn : Bool)
    (currentUser : Option User) (relatedFileId : String) (year rnd now : Nat)
    (form : List (String × String)) (net : Option Bool) : ReportOutcome :=
  if isLoggedIn = false then
    { requests := [], localEntries := [], alerts := [], loginPromptShown := true }
  else
    match currentUser with
    | none =>
      { requests := [], localEntries := [], alerts := [], loginPromptShown := true }
    | some u =>
      let reportId := generateUniqueId year rnd
      let filters := getSelectedFilters form
      let body := JVal.obj
        [("userId", JVal.str u.userId), ("filters", filtersToJVal filters),
         ("reportId", JVal.str reportId)]
      match net with
      | some true =>
        { requests := [body]
          localEntries := [{ date := now, activity := "IA Report"
                             fileName := "Impact_Assessment_Report"
                             fileSize := none, fileId := relatedFileId
                             reportId := reportId }]
          alerts := ["Impact Assessment report generated. ID: " ++ reportId]
          loginPromptShown := false }
      | _ =>
        { requests := [body], localEntries := []
          alerts := ["Failed to generate report. Please try again."]
          loginPromptShown := false }

/-- Modelled from the spec: the stricter revision of
`generateDailyAssessmentReport` is not among the provided source files
(only one of the repository's revisions is under `src/frontend`). Per the
spec it "requires, in the stricter revision, that a file was previously
uploaded in the same session (tracked as 'last uploaded file identifier')",
rejecting the request with a validation message before any network call
when none exists, and otherwise sends `{userId, filters, reportId, fileId}`
to the report endpoint. -/
def generateDailyAssessmentReportStrict (isLoggedIn : Bool)
    (currentUser : Option User) (lastUploadedFileId : Option String)
    (year rnd now : Nat) (form : List (String × String)) (net : Option Bool) :
    ReportOutcome :=
  if isLoggedIn = false then
    { requests := [], localEntries := [], alerts := [], loginPromptShown := true }
  else
    match currentUser with
    | none =>
      { requests := [], localEntries := [], alerts := [], loginPromptShown := true }
    | some u =>
      match lastUploadedFileId with
      | none =>
        { requests := [], localEntries := []
          alerts := ["Please upload a file before generating a report."]
          loginPromptShown := false }
      | some fid =>
        let reportId := generateUniqueId year rnd
        let filters := getSelectedFilters form
        let body := JVal.obj
          [("userId", JVal.str u.userId), ("filters", filtersToJVal filters),
           ("reportId", JVal.str reportId), ("fileId", JVal.str fid)]
        match net with
        | some true =>
          { requests := [body]
            localEntries := [{ date := now, activity := "DA Report"
                               fileName := "Daily_Assessment_Report"
                               fileSize := none, fileId := fid
                               reportId := reportId }]
            alerts := ["Daily Assessment report generated. ID: " ++ reportId]
            loginPromptShown := false }
        | _ =>
          { requests := [body], localEntries := []
            alerts := ["Failed to generate report. Please try again."]
            loginPromptShown := false }

/-! ### Login/OTP flow (`main.js` lines 289-326) -/

/-- The client-visible state of the login flow: `Idle` before a code was
requested, `OtpRequested` once the OTP entry UI is shown. -/
inductive LoginFlowState where
  | Idle
  | OtpRequested
deriving Repr, DecidableEq

/-- Result of `requestLoginOtp`: the final flow state, the JSON bodies sent
to `/api/login`, and the alerts shown. -/
structure OtpRequestOutcome where
  state : LoginFlowState
  requests : List JVal
  alerts : List String
deriving Repr

/-- Model of the JS `email.endsWith(suffix)` builtin. -/
def jsEndsWith (s suffixStr : String) : Bool :=
  suffixStr.data.isSuffixOf s.data

/-- Model of `requestLoginOtp()`: validates that the email is non-empty and
ends with `@agastya.org` (alerting and staying idle otherwise, with no
request issued); on a valid email it POSTs `{email}` to `/api/login` and on
a success response shows the OTP entry UI; on a non-success status or a
network error it alerts and the OTP UI stays hidden. -/
def requestLoginOtp (email : String) (net : Option Bool) : OtpRequestOutcome :=
  if email = "" ∨ jsEndsWith email "@agastya.org" = false then
    { state := LoginFlowState.Idle, requests := []
      alerts := ["Please enter a valid @agastya.org email address"] }
  else
    let body := JVal.obj [("email", JVal.str email)]
    match net with
    | some true =>
      { state := LoginFlowState.OtpRequested, requests := [body], alerts := [] }
    | _ =>
      { state := LoginFlowState.Idle, requests := [body]
        alerts := ["Failed to send OTP. Please check the console for details."] }

/-- A sample user record, used to instantiate witnesses. -/
def exUser : User :=
  { email := "teacher@agastya.org", name := "Teacher"
    userId := "AIF1700000000000_dGVhY2hl", memberSince := "Jan 1, 2024" }

/-- The history POST body produced by a concrete successful daily upload,
used to instantiate the activity-record invariant. -/
def exDailyPost : HistoryPostBody :=
  { user_id := exUser.userId, activity_type := "Daily Assessment File Upload"
    file_id := generateUniqueId 2024 7, file_name := "data.xlsx"
    report_id := none, filters := [] }

/-- The local entry produced by a concrete successful impact upload. -/
def exImpactEntry : HistoryEntry :=
  { date := 0, activity := "IA File Upload", fileName := "data.xlsx"
    fileSize := some 10, fileId := generateUniqueId 2024 7, reportId := "-" }

/-- The local entry produced by a concrete successful daily report call. -/
def exDailyReportEntry : HistoryEntry :=
  { date := 0, activity := "DA Report", fileName := "Daily_Assessment_Report"
    fileSize := none, fileId := "-", reportId := generateUniqueId 2024 7 }

/-- The local entry produced by a concrete successful impact report call. -/
def exImpactReportEntry : HistoryEntry :=
  { date := 0, activity := "IA Report", fileName := "Impact_Assessment_Report"
    fileSize := none, fileId := "-", reportId := generateUniqueId 2024 7 }

/-! ### Helper lemmas about decimal rendering and padding -/

theorem digitChar_isDigit : ∀ m, m < 10 → (Nat.digitChar m).isDigit = true := by
  decide

theorem natToDigitsAux_all_digits (fuel : Nat) :
    ∀ n, (natToDigitsAux fuel n).all Char.isDigit = true := by
  induction fuel with
  | zero => intro n; rfl
  | succ fuel ih =>
    intro n
    simp only [natToDigitsAux]
    split
    · next h => simp [digitChar_isDigit n h]
    · rw [List.all_append]
      simp [ih (n / 10), digitChar_isDigit (n % 10) (Nat.mod_lt _ (by omega))]

theorem natToDigitsAux_length_le (fuel : Nat) :
    ∀ k n, 1 ≤ k → n < 10 ^ k → (natToDigitsAux fuel n).length ≤ k := by
  induction fuel with
  | zero => intro k n _ _; simp [natToDigitsAux]
  | succ fuel ih =>
    intro k n hk hn
    simp only [natToDigitsAux]
    split
    · simpa using hk
    · next h =>
      have h10 : 10 ≤ n := by omega
      have hk2 : 2 ≤ k := by
        rcases Nat.lt_or_ge k 2 with hlt | hge
        · have hk1 : k = 1 := by omega
          subst hk1
          rw [pow_one] at hn
          omega
        · exact hge
      have hpow : (10 : Nat) ^ k = 10 * 10 ^ (k - 1) := by
        rw [← pow_succ']
        congr 1
        omega
      have hdiv : n / 10 < 10 ^ (k - 1) :=
        Nat.div_lt_of_lt_mul (by rw [← hpow]; exact hn)
      have hrec := ih (k - 1) (n / 10) (by omega) hdiv
      rw [List.length_append]
      simp only [List.length_singleton]
      omega

theorem natToDigitsAux_length_pos (fuel n : Nat) (h : 1 ≤ fuel) :
    1 ≤ (natToDigitsAux fuel n).length := by
  match fuel with
  | 0 => omega
  | fuel + 1 =>
    simp only [natToDigitsAux]
    split
    · simp
    · rw [List.length_append]
      simp

theorem natToString_all_digits (n : Nat) :
    (natToString n).data.all Char.isDigit = true :=
  natToDigitsAux_all_digits (n + 1) n

theorem natToString_length_le (k n : Nat) (h1 : 1 ≤ k) (h : n < 10 ^ k) :
    (natToString n).data.length ≤ k :=
  natToDigitsAux_length_le (n + 1) k n h1 h

theorem natToString_length_pos (n : Nat) : 1 ≤ (natToString n).length :=
  natToDigitsAux_length_pos (n + 1) n (by omega)

theorem padStart_length (n : Nat) (c : Char) (s : String)
    (h : s.data.length ≤ n) : (padStart n c s).length = n := by
  show (List.replicate (n - s.data.length) c ++ s.data).length = n
  rw [List.length_append, List.length_replicate]
  omega

theorem padStart_all_digits (n : Nat) (c : Char) (s : String)
    (hc : c.isDigit = true) (hs : s.data.all Char.isDigit = true) :
    (padStart n c s).data.all Char.isDigit = true := by
  show (List.replicate (n - s.data.length) c ++ s.data).all Char.isDigit = true
  rw [List.all_append, hs, Bool.and_true, List.all_eq_true]
  intro x hx
  rw [List.eq_of_mem_replicate hx]
  exact hc

/-! ### Claim theorems -/

/-- C6 (counterexample): the claim that the email-derived identifier always
matches the form `AIF<digits>_<8 chars>` — an 8-character suffix after the
underscore — is false: at timestamp 0 and email `a`, the sanitized base64
of the email is `YQ` (2 characters), so no 8-character suffix decomposition
exists. -/
theorem generateUniqueIdForUser_not_always_8 :
    ¬ ∃ s : String, s.length = 8
      ∧ generateUniqueIdForUser 0 "a" = "AIF" ++ natToString 0 ++ "_" ++ s := by
  rintro ⟨s, hs, he⟩
  have h1 : (generateUniqueIdForUser 0 "a").data = ['A', 'I', 'F', '0', '_', 'Y', 'Q'] := by
    decide
  have h2 : ("AIF" ++ natToString 0 ++ "_" ++ s).data
      = 'A' :: 'I' :: 'F' :: '0' :: '_' :: s.data := rfl
  rw [he, h2] at h1
  have hlen := congrArg List.length h1
  simp at hlen
  have hsl : s.length = s.data.length := rfl
  omega

/-- C6 (amended): the time-seeded variant is the fixed prefix `AIF`, the
current year in decimal digits, and a zero-padded 4-digit random suffix;
the email-derived variant is `AIF`, the current timestamp in decimal digits
(at least one digit), an underscore, and a sanitized base64 encoding of the
email truncated to at most 8 alphanumeric characters. -/
theorem identifier_generator_shapes (year rnd now : Nat) (email : String)
    (h : rnd < 10000) :
    (generateUniqueId year rnd
        = "AIF" ++ natToString year ++ padStart 4 '0' (natToString rnd)
      ∧ (natToString year).data.all Char.isDigit = true
      ∧ (padStart 4 '0' (natToString rnd)).length = 4
      ∧ (padStart 4 '0' (natToString rnd)).data.all Char.isDigit = true)
    ∧ ∃ s : String,
        generateUniqueIdForUser now email
          = "AIF" ++ natToString now ++ "_" ++ s
        ∧ (natToString now).data.all Char.isDigit = true
        ∧ 1 ≤ (natToString now).length
        ∧ s.length ≤ 8
        ∧ s.data.all Char.isAlphanum = true := by
  constructor
  · refine ⟨rfl, natToString_all_digits year, ?_, ?_⟩
    · apply padStart_length
      apply natToString_length_le 4 rnd (by omega)
      have h4 : (10 : Nat) ^ 4 = 10000 := by norm_num
      omega
    · exact padStart_all_digits 4 '0' _ (by decide) (natToString_all_digits rnd)
  · refine ⟨⟨(sanitizeAlnum (btoa email)).data.take 8⟩, rfl,
      natToString_all_digits now, natToString_length_pos now, ?_, ?_⟩
    · show (List.take 8 (sanitizeAlnum (btoa email)).data).length ≤ 8
      rw [List.length_take]
      exact Nat.min_le_left _ _
    · show (List.take 8 ((btoa email).data.filter Char.isAlphanum)).all Char.isAlphanum = true
      rw [List.all_eq_true]
      intro x hx
      exact List.of_mem_filter (List.take_subset _ _ hx)

/-- C6 (witness): the amended identifier-shape theorem instantiated at
year 2024, random value 7, timestamp 0 and email `a`. -/
theorem identifier_generator_shapes_witness :
    (padStart 4 '0' (natToString 7)).length = 4
    ∧ ∃ s : String,
        generateUniqueIdForUser 0 "a" = "AIF" ++ natToString 0 ++ "_" ++ s
        ∧ s.length ≤ 8 := by
  have h := identifier_generator_shapes 2024 7 0 "a" (by decide)
  refine ⟨h.1.2.2.1, ?_⟩
  obtain ⟨s, h1, _, _, h4, _⟩ := h.2
  exact ⟨s, h1, h4⟩

/-- C1: when the stored session value is present but unparseable, startup
restore discards the stored value, leaves the session unauthenticated with
no current user, and (being a total function whose fallback branch models
the caught parse exception) does not throw. -/
theorem restore_corrupt_session_unauthenticated (parse : String → Option User)
    (st : SessionState) (s : String) (hstore : st.storage = some s)
    (hbad : parse s = none) :
    isAuthenticated (checkLoginStatusOnLoad parse st) = false
    ∧ (checkLoginStatusOnLoad parse st).currentUser = none
    ∧ (checkLoginStatusOnLoad parse st).storage = none := by
  simp [checkLoginStatusOnLoad, isAuthenticated, hstore, hbad]

/-- C1 (witness): a concrete corrupted stored value is discarded. -/
theorem restore_corrupt_session_unauthenticated_witness :
    isAuthenticated (checkLoginStatusOnLoad (fun _ => none)
      { isLoggedIn := true, currentUser := some exUser, storage := some "corrupt" }) = false
    ∧ (checkLoginStatusOnLoad (fun _ => none)
      { isLoggedIn := true, currentUser := some exUser, storage := some "corrupt" }).currentUser = none
    ∧ (checkLoginStatusOnLoad (fun _ => none)
      { isLoggedIn := true, currentUser := some exUser, storage := some "corrupt" }).storage = none :=
  restore_corrupt_session_unauthenticated (fun _ => none) _ "corrupt" rfl rfl

/-- C10: `loginUser` establishes the in-memory session (logged-in flag set,
current user set to the given record) regardless of whether the storage
write succeeds; when the write throws, the failure is swallowed and the
storage slot is left as it was. -/
theorem login_establishes_session (serialize : User → String) (user : User)
    (storageOk : Bool) (st : SessionState) :
    (loginUser serialize user storageOk st).isLoggedIn = true
    ∧ (loginUser serialize user storageOk st).currentUser = some user
    ∧ isAuthenticated (loginUser serialize user storageOk st) = true
    ∧ (storageOk = false →
        (loginUser serialize user storageOk st).storage = st.storage) := by
  refine ⟨rfl, rfl, rfl, ?_⟩
  intro h
  simp [loginUser, h]

/-- C10 (witness): a concrete login whose storage write throws still
establishes the session and keeps the old storage contents. -/
theorem login_establishes_session_witness :
    (loginUser (fun _ => "") exUser false
      { isLoggedIn := false, currentUser := none, storage := some "old" }).isLoggedIn = true
    ∧ (loginUser (fun _ => "") exUser false
      { isLoggedIn := false, currentUser := none, storage := some "old" }).storage = some "old" := by
  have h := login_establishes_session (fun _ => "") exUser false
    { isLoggedIn := false, currentUser := none, storage := some "old" }
  exact ⟨h.1, h.2.2.2 rfl⟩

/-- C5: a submitted login email that does not end in `@agastya.org`
(including the empty email) produces a validation alert, leaves the flow
idle and issues no network request; an email ending in the suffix sends
exactly one OTP request, with body `{email}`, to the login endpoint. -/
theorem login_otp_email_validation (email : String) (net : Option Bool) :
    (jsEndsWith email "@agastya.org" = false →
      requestLoginOtp email net
        = { state := LoginFlowState.Idle, requests := []
            alerts := ["Please enter a valid @agastya.org email address"] })
    ∧ (email = "" →
      requestLoginOtp email net
        = { state := LoginFlowState.Idle, requests := []
            alerts := ["Please enter a valid @agastya.org email address"] })
    ∧ (jsEndsWith email "@agastya.org" = true →
      (requestLoginOtp email net).requests
        = [JVal.obj [("email", JVal.str email)]]) := by
  refine ⟨?_, ?_, ?_⟩
  · intro h
    simp [requestLoginOtp, h]
  · intro h
    simp [requestLoginOtp, h]
  · intro h
    have hne : email ≠ "" := by
      intro hEmpty
      rw [hEmpty] at h
      exact absurd h (by decide)
    have hcond : ¬ (email = "" ∨ jsEndsWith email "@agastya.org" = false) := by
      rintro (hc | hc)
      · exact hne hc
      · rw [h] at hc
        exact Bool.noConfusion hc
    rw [requestLoginOtp, if_neg hcond]
    cases net with
    | none => rfl
    | some b => cases b <;> rfl

/-- C5 (witness): a concrete rejected email issues no request; a concrete
accepted email issues exactly the login request. -/
theorem login_otp_email_validation_witness :
    (requestLoginOtp "bad@gmail.com" (some true)).requests = []
    ∧ (requestLoginOtp "a@agastya.org" (some true)).requests
      = [JVal.obj [("email", JVal.str "a@agastya.org")]] := by
  constructor
  · have h := (login_otp_email_validation "bad@gmail.com" (some true)).1 (by decide)
    rw [h]
  · exact (login_otp_email_validation "a@agastya.org" (some true)).2.2 (by decide)

/-- C2: an upload call (daily or impact) whose upload request gets a
non-success HTTP status or a network error returns `none` (the JS `null`)
and appends no activity record, neither as a remote history POST nor as a
local history entry. -/
theorem upload_failure_returns_no_id (currentUser : Option User)
    (year rnd now : Nat) (fileName : String) (fileSize : Nat)
    (uploadNet historyNet : Option Bool) (hfail : uploadNet ≠ some true) :
    ((handleDailyAssessmentFile currentUser year rnd fileName uploadNet historyNet).result = none
      ∧ (handleDailyAssessmentFile currentUser year rnd fileName uploadNet historyNet).historyPosts = []
      ∧ (handleDailyAssessmentFile currentUser year rnd fileName uploadNet historyNet).localEntries = [])
    ∧ ((handleImpactAssessmentFile currentUser year rnd now fileName fileSize uploadNet).result = none
      ∧ (handleImpactAssessmentFile currentUser year rnd now fileName fileSize uploadNet).historyPosts = []
      ∧ (handleImpactAssessmentFile currentUser year rnd now fileName fileSize uploadNet).localEntries = []) := by
  cases currentUser with
  | none => exact ⟨⟨rfl, rfl, rfl⟩, ⟨rfl, rfl, rfl⟩⟩
  | some u =>
    cases uploadNet with
    | none => exact ⟨⟨rfl, rfl, rfl⟩, ⟨rfl, rfl, rfl⟩⟩
    | some b =>
      cases b with
      | false => exact ⟨⟨rfl, rfl, rfl⟩, ⟨rfl, rfl, rfl⟩⟩
      | true => exact absurd rfl hfail

/-- C2 (witness): a concrete upload answered with a non-success status
yields no identifier and no history records. -/
theorem upload_failure_returns_no_id_witness :
    (handleDailyAssessmentFile (some exUser) 2024 7 "data.xlsx" (some false) (some true)).result = none
    ∧ (handleImpactAssessmentFile (some exUser) 2024 7 0 "data.xlsx" 10 (some false)).localEntries = [] := by
  have h := upload_failure_returns_no_id (some exUser) 2024 7 0 "data.xlsx" 10
    (some false) (some true) (by decide)
  exact ⟨h.1.1, h.2.2.2⟩

/-- C3: in the stricter report flow (modelled from the spec, see
`generateDailyAssessmentReportStrict`), an authenticated session with no
last-uploaded file identifier has its report request rejected with a
validation message before any network call: no request body is sent, no
history entry is appended, and no login prompt is involved. -/
theorem strict_report_requires_prior_upload (u : User) (year rnd now : Nat)
    (form : List (String × String)) (net : Option Bool) :
    (generateDailyAssessmentReportStrict true (some u) none year rnd now form net).requests = []
    ∧ (generateDailyAssessmentReportStrict true (some u) none year rnd now form net).localEntries = []
    ∧ (generateDailyAssessmentReportStrict true (some u) none year rnd now form net).alerts
      = ["Please upload a file before generating a report."]
    ∧ (generateDailyAssessmentReportStrict true (some u) none year rnd now form net).loginPromptShown = false :=
  ⟨rfl, rfl, rfl, rfl⟩

/-- C4 (counterexample): the claim that the daily-assessment report body is
the JSON payload with keys `userId`, `filters`, `reportId` and `fileId` is
false on the source: a concrete authenticated report request sends a body
whose keys are exactly `userId`, `filters`, `reportId` — no `fileId`. -/
theorem daily_report_body_lacks_fileId :
    (generateDailyAssessmentReport true (some exUser) "AIF20240001" 2024 7 0
      [("school", "X")] (some true)).requests.map objKeys
      = [["userId", "filters", "reportId"]]
    ∧ "fileId" ∉ (["userId", "filters", "reportId"] : List String) := by
  exact ⟨rfl, by decide⟩

/-- C4 (amended): every daily-assessment report generation by an
authenticated session sends exactly one request body, containing the user
identifier, the current filter selection and the freshly generated report
identifier — and no `fileId` field; the file reference argument only flows
into the locally appended history entry. -/
theorem daily_report_body_fields (u : User) (relatedFileId : String)
    (year rnd now : Nat) (form : List (String × String)) (net : Option Bool) :
    (generateDailyAssessmentReport true (some u) relatedFileId year rnd now form net).requests
      = [JVal.obj [("userId", JVal.str u.userId),
                   ("filters", filtersToJVal (getSelectedFilters form)),
                   ("reportId", JVal.str (generateUniqueId year rnd))]]
    ∧ objKeys (JVal.obj [("userId", JVal.str u.userId),
                   ("filters", filtersToJVal (getSelectedFilters form)),
                   ("reportId", JVal.str (generateUniqueId year rnd))])
      = ["userId", "filters", "reportId"]
    ∧ "fileId" ∉ (["userId", "filters", "reportId"] : List String) := by
  refine ⟨?_, rfl, by decide⟩
  cases net with
  | none => rfl
  | some b => cases b <;> rfl

/-- C7: a history fetch that succeeds with an empty result list replaces
the table contents with exactly the single no-records row — not zero rows
and not an error row; likewise the renderer itself on an empty list. -/
theorem fetch_empty_history_renders_no_records (fmt : Nat → String) (u : User)
    (table : List TableRow) :
    renderHistoryTable fmt [] = [TableRow.noRecords]
    ∧ (u.userId ≠ "" →
        (fetchUserHistory fmt (some u) (HistoryNet.success []) table).table
          = [TableRow.noRecords]) := by
  refine ⟨rfl, ?_⟩
  intro h
  simp [fetchUserHistory, h, renderHistoryTable]

/-- C7 (witness): a concrete logged-in user with an empty history result
gets exactly one no-records row. -/
theorem fetch_empty_history_renders_no_records_witness :
    (fetchUserHistory (fun _ => "") (some exUser) (HistoryNet.success []) []).table
      = [TableRow.noRecords] :=
  (fetch_empty_history_renders_no_records (fun _ => "") exUser []).2 (by decide)

/-- C9: a history fetch while no user is logged in, or while the current
user has a falsy (empty) user id, returns immediately: no request is issued
and the displayed table is left unchanged. -/
theorem fetch_history_without_user_is_noop (fmt : Nat → String)
    (currentUser : Option User) (net : HistoryNet) (table : List TableRow)
    (h : currentUser = none ∨ ∃ u, currentUser = some u ∧ u.userId = "") :
    (fetchUserHistory fmt currentUser net table).table = table
    ∧ (fetchUserHistory fmt currentUser net table).requestIssued = false := by
  rcases h with h | ⟨u, hu, hid⟩
  · subst h
    exact ⟨rfl, rfl⟩
  · subst hu
    simp [fetchUserHistory, hid]

/-- C9 (witness): the fetch with no logged-in user leaves a concrete table
alone and issues no request. -/
theorem fetch_history_without_user_is_noop_witness :
    (fetchUserHistory (fun _ => "") none HistoryNet.netError
      [TableRow.noRecords]).table = [TableRow.noRecords]
    ∧ (fetchUserHistory (fun _ => "") none HistoryNet.netError
      [TableRow.noRecords]).requestIssued = false :=
  fetch_history_without_user_is_noop (fun _ => "") none HistoryNet.netError
    [TableRow.noRecords] (Or.inl rfl)

/-- C8: every activity record created by the upload and report operations
satisfies the invariant — an upload record carries the generated file
identifier and no report identifier (the remote POST carries `null`, the
local entry the `-` placeholder), and a report record carries the generated
report identifier together with the related file identifier it was passed
(the derived-from file id, or the `-` placeholder default). -/
theorem activity_record_invariant (u : User) (year rnd now : Nat)
    (fileName : String) (fileSize : Nat) (relatedFileId : String)
    (form : List (String × String)) (uploadNet historyNet net : Option Bool) :
    (∀ e ∈ (handleDailyAssessmentFile (some u) year rnd fileName uploadNet historyNet).historyPosts,
       e.file_id = generateUniqueId year rnd ∧ e.report_id = none)
    ∧ (handleDailyAssessmentFile (some u) year rnd fileName uploadNet historyNet).localEntries = []
    ∧ (∀ e ∈ (handleImpactAssessmentFile (some u) year rnd now fileName fileSize uploadNet).localEntries,
       e.fileId = generateUniqueId year rnd ∧ e.reportId = "-")
    ∧ (∀ e ∈ (generateDailyAssessmentReport true (some u) relatedFileId year rnd now form net).localEntries,
       e.reportId = generateUniqueId year rnd ∧ e.fileId = relatedFileId)
    ∧ (∀ e ∈ (generateImpactAssessmentReport true (some u) relatedFileId year rnd now form net).localEntries,
       e.reportId = generateUniqueId year rnd ∧ e.fileId = relatedFileId) := by
  refine ⟨?_, ?_, ?_, ?_, ?_⟩
  · rcases uploadNet with _ | b
    · simp [handleDailyAssessmentFile]
    · cases b
      · simp [handleDailyAssessmentFile]
      · rcases historyNet with _ | c <;> simp [handleDailyAssessmentFile]
  · rcases uploadNet with _ | b
    · rfl
    · cases b
      · rfl
      · rcases historyNet with _ | c <;> rfl
  · rcases uploadNet with _ | b
    · simp [handleImpactAssessmentFile]
    · cases b <;> simp [handleImpactAssessmentFile]
  · rcases net with _ | b
    · simp [generateDailyAssessmentReport]
    · cases b <;> simp [generateDailyAssessmentReport]
  · rcases net with _ | b
    · simp [generateImpactAssessmentReport]
    · cases b <;> simp [generateImpactAssessmentReport]

/-- C8 (witness): the invariant instantiated on the records of concrete
successful runs of all four operations. -/
theorem activity_record_invariant_witness :
    (exDailyPost.file_id = generateUniqueId 2024 7 ∧ exDailyPost.report_id = none)
    ∧ (exImpactEntry.fileId = generateUniqueId 2024 7 ∧ exImpactEntry.reportId = "-")
    ∧ (exDailyReportEntry.reportId = generateUniqueId 2024 7 ∧ exDailyReportEntry.fileId = "-")
    ∧ (exImpactReportEntry.reportId = generateUniqueId 2024 7 ∧ exImpactReportEntry.fileId = "-") := by
  refine ⟨?_, ?_, ?_, ?_⟩
  · exact (activity_record_invariant exUser 2024 7 0 "data.xlsx" 10 "-" []
      (some true) (some true) (some true)).1 exDailyPost (by decide)
  · exact (activity_record_invariant exUser 2024 7 0 "data.xlsx" 10 "-" []
      (some true) (some true) (some true)).2.2.1 exImpactEntry (by decide)
  · exact (activity_record_invariant exUser 2024 7 0 "data.xlsx" 10 "-" []
      (some true) (some true) (some true)).2.2.2.1 exDailyReportEntry (by decide)
  · exact (activity_record_invariant exUser 2024 7 0 "data.xlsx" 10 "-" []
      (some true) (some true) (some true)).2.2.2.2 exImpactReportEntry (by decide)
